import Mathlib

/-!
Shallow embedding of the stacked-timeline visualizer (`src/script.js`).

The embedding models calendar dates as civil day numbers (`Nat`), matching the
source's use of `new Date("YYYY-MM-DD")` values (UTC midnights) that are only
ever compared, subtracted, and stepped in whole days.  JavaScript library
behavior entering the core is modelled per its documented semantics:
`String.prototype.trim` (whitespace stripping), `new Date` on ISO
`YYYY-MM-DD` strings (invalid dates become `none`, the model of `NaN`),
`d3.timeDay.range(start, stop)` (day boundaries in the half-open interval
`[start, stop)`), JS `Set` insertion order, and `d3.stack` with
`stackOrderNone`/`stackOffsetNone` (each layer's lower bound is the previous
layer's upper bound, first layer starts at 0).
-/

namespace Timeline

/-- Model of JS `String.prototype.trim` on the character list of a string. -/
def trimChars (l : List Char) : List Char :=
  ((l.dropWhile Char.isWhitespace).reverse.dropWhile Char.isWhitespace).reverse

/-- Model of JS `String.prototype.trim`. -/
def jsTrim (s : String) : String :=
  String.mk (trimChars s.toList)

/-- Gregorian leap-year test. -/
def isLeap (y : Nat) : Bool :=
  (y % 4 == 0 && y % 100 != 0) || y % 400 == 0

/-- Days in a given month of a given year. -/
def daysInMonth (y m : Nat) : Nat :=
  if m == 2 then (if isLeap y then 29 else 28)
  else if m == 4 || m == 6 || m == 9 || m == 11 then 30 else 31

/-- Civil day number of a calendar date (days since 0000-03-01, standard
civil-from-days arithmetic); strictly monotone in the date and exact on
day differences, which is all the source uses of `Date` values. -/
def daysFromCivil (y m d : Nat) : Nat :=
  let yy := if m ≤ 2 then y - 1 else y
  let era := yy / 400
  let yoe := yy % 400
  let mp := (m + 9) % 12
  let doy := (153 * mp + 2) / 5 + (d - 1)
  let doe := yoe * 365 + yoe / 4 - yoe / 100 + doy
  era * 146097 + doe

/-- Numeric value of a digit character. -/
def digitVal (c : Char) : Nat := c.toNat - 48

/-- Parse an ISO `YYYY-MM-DD` character list to a civil day number;
`none` models an Invalid Date (`NaN`). -/
def parseYMD (l : List Char) : Option Nat :=
  match l with
  | [y1, y2, y3, y4, s1, m1, m2, s2, d1, d2] =>
    if s1 == '-' && s2 == '-' && y1.isDigit && y2.isDigit && y3.isDigit && y4.isDigit
        && m1.isDigit && m2.isDigit && d1.isDigit && d2.isDigit then
      let y := digitVal y1 * 1000 + digitVal y2 * 100 + digitVal y3 * 10 + digitVal y4
      let m := digitVal m1 * 10 + digitVal m2
      let d := digitVal d1 * 10 + digitVal d2
      if 1 ≤ m ∧ m ≤ 12 ∧ 1 ≤ d ∧ d ≤ daysInMonth y m then
        some (daysFromCivil y m d)
      else none
    else none
  | _ => none

/-- Model of `new Date(s)` for calendar-date strings: ISO `YYYY-MM-DD`
(surrounding whitespace tolerated, as JS engines do); `none` models
an Invalid Date. -/
def parseDate (s : String) : Option Nat :=
  parseYMD (trimChars s.toList)

/-- A parsed CSV row as produced by PapaParse with `header: true`:
an association from header names to cell strings (`none` lookup models
a JS `undefined` property). -/
abbrev Row := List (String × String)

/-- JS property access `row[h]`. -/
def lookupField (row : Row) (k : String) : Option String :=
  (row.find? (fun p => p.1 == k)).map (fun p => p.2)

/-- JS `String(x)` applied to a possibly-undefined value. -/
def jsStr : Option String → String
  | some s => s
  | none => "undefined"

/-- JS `new Date(x)` applied to a possibly-undefined value
(`new Date(undefined)` is an Invalid Date). -/
def jsDateOf : Option String → Option Nat
  | some s => parseDate s
  | none => none

/-- A cleaned interval (source field `end` is a Lean keyword, modelled as
`stop`). -/
structure Interval where
  id : String
  start : Nat
  stop : Nat
deriving DecidableEq

/-- Lines 196-205 for one row: `{id: String(d.id), start: new Date(d.start),
end: new Date(d.end)}` kept iff the id is truthy, both dates are valid and
`end >= start` (rows whose dates are invalid carry no data, so dropping
them at construction is the same filter). -/
def cleanRow (row : Row) : Option Interval :=
  let i := jsStr (lookupField row "id")
  match jsDateOf (lookupField row "start"), jsDateOf (lookupField row "end") with
  | some s, some e => if i ≠ "" ∧ s ≤ e then some ⟨i, s, e⟩ else none
  | _, _ => none

/-- Lines 196-205: clean and filter all rows (map + filter fused into one
`filterMap`). -/
def cleanData (rawData : List Row) : List Interval :=
  rawData.filterMap cleanRow

/-- Line 218: `Array.from(new Set(data.map(d => d.id)))`; a JS `Set`
iterates in insertion order, i.e. first occurrence. -/
def keys (data : List Interval) : List String :=
  (data.map (fun d => d.id)).foldl (fun acc x => if x ∈ acc then acc else acc ++ [x]) []

/-- Line 221: `d3.min(data, d => d.start)` (only used on non-empty data). -/
def minTime (data : List Interval) : Nat :=
  match data with
  | [] => 0
  | d :: ds => ds.foldl (fun m x => min m x.start) d.start

/-- Line 222: `d3.max(data, d => d.end)` (only used on non-empty data). -/
def maxTime (data : List Interval) : Nat :=
  match data with
  | [] => 0
  | d :: ds => ds.foldl (fun m x => max m x.stop) d.stop

/-- Line 226: `d3.timeDay.range(minTime, maxTime)` — every day boundary
greater than or equal to `start` and before `stop` (stop exclusive). -/
def timeIntervals (data : List Interval) : List Nat :=
  (List.range (maxTime data - minTime data)).map (fun i => minTime data + i)

/-- Lines 236-238: `data.some(d => d.id === key && t >= d.start && t <= d.end)`. -/
def isActive (data : List Interval) (key : String) (t : Nat) : Bool :=
  data.any (fun d => d.id == key && decide (d.start ≤ t) && decide (t ≤ d.stop))

/-- Line 239: `timePoint[key] = isActive ? 1 : 0`. -/
def occupancy (data : List Interval) (key : String) (t : Nat) : Nat :=
  if isActive data key t then 1 else 0

/-- One per-day snapshot `{time: t, key₁: occ₁, ...}`; the key-indexed
fields are kept as a list in key order. -/
structure DayPoint where
  time : Nat
  occ : List (String × Nat)
deriving DecidableEq

/-- Lines 229-243: the dense per-day occupancy series. -/
def timeseriesData (data : List Interval) : List DayPoint :=
  (timeIntervals data).map (fun t => ⟨t, (keys data).map (fun k => (k, occupancy data k t))⟩)

/-- `d3.stack` with `stackOrderNone`/`stackOffsetNone` at one time point:
walk the keys in order; each layer's lower bound is the running sum so far
(the previous layer's upper bound, first layer 0) and its upper bound adds
the key's value.  Entries are `(key, y0, y1)`. -/
def stackWalk (data : List Interval) (t : Nat) : List String → Nat → List (String × Nat × Nat)
  | [], _ => []
  | k :: ks, s => (k, s, s + occupancy data k t) :: stackWalk data t ks (s + occupancy data k t)

/-- Lines 257-262: the stacked `[y0, y1]` layout at time `t`. -/
def stackAt (data : List Interval) (t : Nat) : List (String × Nat × Nat) :=
  stackWalk data t (keys data) 0

/-- Line 266: `d3.max(series, d => d3.max(d, d => d[1]))` — the maximum of
all `y1` values over every (key, day) pair; iterating days outer and keys
inner visits the same set of values as the source's keys-outer nesting.
(`d3.max` of an empty collection is `undefined`; modelled as 0, which only
arises when no day is generated.) -/
def maxHeight (data : List Interval) : Nat :=
  ((timeIntervals data).map
    (fun t => ((stackAt data t).map (fun e => e.2.2)).foldl Nat.max 0)).foldl Nat.max 0

/-- The renderer-facing output of `processDataAndDrawChart`: key set,
generated days, stacked series and maximum stack height. -/
structure ChartResult where
  keys : List String
  days : List Nat
  series : List (List (String × Nat × Nat))
  maxHeight : Nat
deriving DecidableEq

/-- The data handed to the drawing code (lines 218-267). -/
def drawChart (data : List Interval) : ChartResult :=
  ⟨keys data, timeIntervals data, (timeIntervals data).map (fun t => stackAt data t), maxHeight data⟩

/-- Model of JS `toLowerCase` for header names. -/
def toLowerStr (s : String) : String :=
  String.mk (s.toList.map Char.toLower)

/-- Lines 115-117: required columns not present among the lowercased
header fields. -/
def missingColumns (fields : List String) : List String :=
  ["id", "start", "end"].filter (fun r => !((fields.map toLowerStr).contains r))

/-- Lines 125-126: map a lowercase name to the actual header spelling;
`forEach` assignment means the last matching header wins. -/
def fieldMap (fields : List String) (k : String) : Option String :=
  (fields.filter (fun f => toLowerStr f == k)).getLast?

/-- `row[fieldMap[name]]`. -/
def getField (fields : List String) (row : Row) (name : String) : Option String :=
  (fieldMap fields name).bind (fun h => lookupField row h)

/-- Line 133: trimmed id cell, `''` when undefined/null. -/
def idValOf (fields : List String) (row : Row) : String :=
  match getField fields row "id" with
  | some v => jsTrim v
  | none => ""

/-- Line 134: trimmed start cell, `''` when undefined/null. -/
def startRawOf (fields : List String) (row : Row) : String :=
  match getField fields row "start" with
  | some v => jsTrim v
  | none => ""

/-- Line 135: trimmed end cell, `''` when undefined/null. -/
def endRawOf (fields : List String) (row : Row) : String :=
  match getField fields row "end" with
  | some v => jsTrim v
  | none => ""

/-- A row-level validation error.  The source builds message strings; the
constructors carry the row number and every raw value interpolated into
the corresponding message. -/
inductive ValidationError where
  | missingId (rowNum : Nat)
  | missingStart (rowNum : Nat)
  | invalidStart (rowNum : Nat) (raw : String)
  | missingEnd (rowNum : Nat)
  | invalidEnd (rowNum : Nat) (raw : String)
  | endBeforeStart (rowNum : Nat) (startRaw endRaw : String)
deriving DecidableEq

/-- Lines 130-162: the errors pushed for one row (`rowNum` is the 1-based
CSV row number, header = row 1). -/
def rowErrorsOf (fields : List String) (rowNum : Nat) (row : Row) : List ValidationError :=
  (if idValOf fields row = "" then [ValidationError.missingId rowNum] else []) ++
  (if startRawOf fields row = "" then [ValidationError.missingStart rowNum]
   else if (parseDate (startRawOf fields row)).isNone then
     [ValidationError.invalidStart rowNum (startRawOf fields row)]
   else []) ++
  (if endRawOf fields row = "" then [ValidationError.missingEnd rowNum]
   else if (parseDate (endRawOf fields row)).isNone then
     [ValidationError.invalidEnd rowNum (endRawOf fields row)]
   else []) ++
  (match (if startRawOf fields row = "" then none else parseDate (startRawOf fields row)),
         (if endRawOf fields row = "" then none else parseDate (endRawOf fields row)) with
   | some s, some e =>
     if e < s then [ValidationError.endBeforeStart rowNum (startRawOf fields row) (endRawOf fields row)]
     else []
   | _, _ => [])

/-- `results.data.forEach((row, idx) => ...)` with `rowNum = idx + 2`. -/
def rowErrorsAux (fields : List String) : Nat → List Row → List ValidationError
  | _, [] => []
  | idx, r :: rs => rowErrorsOf fields (idx + 2) r ++ rowErrorsAux fields (idx + 1) rs

/-- Lines 129-162: all row errors, in row order. -/
def rowErrors (fields : List String) (data : List Row) : List ValidationError :=
  rowErrorsAux fields 0 data

/-- The observable outcome of one `handleCsvText` invocation after a clean
parse. -/
inductive Outcome where
  | headerError (missing : List String)
  | rejected (shown : List ValidationError)
  | noValidData
  | chart (result : ChartResult)
deriving DecidableEq

/-- Lines 193-267: clean/filter the rows; alert "No valid data found" when
nothing survives, otherwise compute and draw the chart. -/
def processDataAndDrawChart (rawData : List Row) : Outcome :=
  let data := cleanData rawData
  if data = [] then Outcome.noValidData else Outcome.chart (drawChart data)

/-- Lines 114-178: header check, then row validation (showing at most the
first 200 errors), then processing. -/
def handleCsvText (fields : List String) (data : List Row) : Outcome :=
  if missingColumns fields ≠ [] then Outcome.headerError (missingColumns fields)
  else if rowErrors fields data ≠ [] then Outcome.rejected ((rowErrors fields data).take 200)
  else processDataAndDrawChart data

/-- Spec-side definition: the distinct elements of a list in order of first
occurrence. -/
def firstOccurrence : List String → List String
  | [] => []
  | x :: xs => x :: firstOccurrence (xs.filter (fun y => y ≠ x))
termination_by l => l.length
decreasing_by
  simp only [List.length_cons]
  exact Nat.lt_succ_of_le (List.length_filter_le _ _)

/-- Spec-side definition: the number of distinct ids active on day `t`
("the true maximum number of distinct ids simultaneously active" ranges
this over all days of the span). -/
def activeCount (data : List Interval) (t : Nat) : Nat :=
  ((keys data).filter (fun k => isActive data k t)).length

/-- The per-interval activity test, unfolded. -/
theorem isActive_iff (data : List Interval) (k : String) (t : Nat) :
    isActive data k t = true ↔
      ∃ iv, iv ∈ data ∧ iv.id = k ∧ iv.start ≤ t ∧ t ≤ iv.stop := by
  simp [isActive, List.any_eq_true, Bool.and_eq_true, decide_eq_true_eq, beq_iff_eq,
    and_assoc]

/-- C1: the claim states one DayPoint per calendar day from `minStart` to
`maxEnd` inclusive, so 3 DayPoints (Jan 1, Jan 2, Jan 3) for the single
interval X = [2024-01-01, 2024-01-03].  The code generates the half-open
range `[minStart, maxEnd)` (`d3.timeDay.range` excludes its stop), so the
last calendar day is never produced: the input yields exactly 2 DayPoints,
Jan 1 and Jan 2, each with occupancy 1 for "X", and `maxStackHeight = 1`. -/
theorem C1_single_interval_two_daypoints :
    timeseriesData [⟨"X", daysFromCivil 2024 1 1, daysFromCivil 2024 1 3⟩] =
      [⟨daysFromCivil 2024 1 1, [("X", 1)]⟩, ⟨daysFromCivil 2024 1 2, [("X", 1)]⟩] ∧
    (timeseriesData [⟨"X", daysFromCivil 2024 1 1, daysFromCivil 2024 1 3⟩]).length = 2 ∧
    maxHeight [⟨"X", daysFromCivil 2024 1 1, daysFromCivil 2024 1 3⟩] = 1 := by
  decide

/-- C2: the claim states that a zero-duration interval (`start == end`)
produces exactly one active DayPoint.  The code accepts the row as valid
(the cleaning filter keeps `end >= start`), but `d3.timeDay.range(t, t)`
is empty, so the pipeline produces zero DayPoints. -/
theorem C2_zero_duration_empty_series :
    cleanData [[("id", "X"), ("start", "2024-01-01"), ("end", "2024-01-01")]] =
      [⟨"X", daysFromCivil 2024 1 1, daysFromCivil 2024 1 1⟩] ∧
    timeseriesData [⟨"X", daysFromCivil 2024 1 1, daysFromCivil 2024 1 1⟩] = [] := by
  decide

/-- C3: for every id `k` and day `t`, the occupancy of `k` at `t` is 1 iff
some interval with id `k` satisfies `start <= t <= end` (inclusive both
ends), and is 0 otherwise — the logical OR over that id's intervals, never
a value greater than 1. -/
theorem C3_occupancy_iff_exists (data : List Interval) (k : String) (t : Nat) :
    (occupancy data k t = 1 ↔
      ∃ iv, iv ∈ data ∧ iv.id = k ∧ iv.start ≤ t ∧ t ≤ iv.stop) ∧
    (occupancy data k t = 0 ∨ occupancy data k t = 1) := by
  constructor
  · rw [← isActive_iff]
    unfold occupancy
    cases h : isActive data k t <;> simp [h]
  · unfold occupancy
    cases isActive data k t <;> simp

/-- C5: the claim states `maxStackHeight` equals the true maximum number of
distinct ids simultaneously active on any single day of the span.  With
A = [day 0, day 1] and B = [day 1, day 1] the only generated day is day 0
(the final day of the span is excluded by `d3.timeDay.range`), so the code
computes `maxStackHeight = 1` although on day 1 — inside the span — both
ids are active simultaneously. -/
theorem C5_maxHeight_undercounts :
    maxHeight [⟨"A", 0, 1⟩, ⟨"B", 1, 1⟩] = 1 ∧
    minTime [⟨"A", 0, 1⟩, ⟨"B", 1, 1⟩] ≤ 1 ∧
    1 ≤ maxTime [⟨"A", 0, 1⟩, ⟨"B", 1, 1⟩] ∧
    activeCount [⟨"A", 0, 1⟩, ⟨"B", 1, 1⟩] 1 = 2 := by
  decide

/-- The sum of the occupancies of the first `j` keys at day `t` — the
claimed baseline of key `j`. -/
def baselineSum (data : List Interval) (t : Nat) (j : Nat) : Nat :=
  (((keys data).take j).map (fun k => occupancy data k t)).sum

/-- Unrolling the stack walk: the `j`-th entry carries the key, the
accumulator plus the occupancy sum of the keys before `j`, and that value
plus the key's own occupancy. -/
theorem stackWalk_getD (data : List Interval) (t : Nat) :
    ∀ (ks : List String) (s j : Nat), j < ks.length →
      (stackWalk data t ks s).getD j ("", 0, 0) =
        (ks.getD j "",
         s + ((ks.take j).map (fun k => occupancy data k t)).sum,
         s + ((ks.take j).map (fun k => occupancy data k t)).sum +
           occupancy data (ks.getD j "") t) := by
  intro ks
  induction ks with
  | nil => intro s j h; simp at h
  | cons k ks ih =>
    intro s j h
    cases j with
    | zero => simp [stackWalk]
    | succ j =>
      simp only [stackWalk, List.getD_cons_succ, List.take_succ_cons, List.map_cons,
        List.sum_cons]
      rw [ih (s + occupancy data k t) j (by simpa using Nat.lt_of_succ_lt_succ h)]
      simp [Nat.add_assoc]

/-- C4: at every DayPoint, key `j`'s baseline is the sum of the occupancies
of the keys ordered before it (running sum starting at 0), its top is the
baseline plus its own occupancy, and `top - baseline` is that occupancy,
which is at most 1. -/
theorem C4_stack_baseline_top (data : List Interval) (t : Nat) (j : Nat)
    (hj : j < (keys data).length) :
    (stackAt data t).getD j ("", 0, 0) =
      ((keys data).getD j "", baselineSum data t j,
       baselineSum data t j + occupancy data ((keys data).getD j "") t) ∧
    ((stackAt data t).getD j ("", 0, 0)).2.2 - ((stackAt data t).getD j ("", 0, 0)).2.1 =
      occupancy data ((keys data).getD j "") t ∧
    occupancy data ((keys data).getD j "") t ≤ 1 := by
  have h := stackWalk_getD data t (keys data) 0 j hj
  refine ⟨?_, ?_, ?_⟩
  · simpa [stackAt, baselineSum] using h
  · unfold stackAt
    rw [h]
    simp
  · unfold occupancy
    split <;> simp

/-- Witness for C4 at the single-interval input A = [0, 0], day 0, key 0. -/
theorem C4_stack_baseline_top_witness :
    (stackAt [⟨"A", 0, 0⟩] 0).getD 0 ("", 0, 0) =
      ((keys [⟨"A", 0, 0⟩]).getD 0 "", baselineSum [⟨"A", 0, 0⟩] 0 0,
       baselineSum [⟨"A", 0, 0⟩] 0 0 +
         occupancy [⟨"A", 0, 0⟩] ((keys [⟨"A", 0, 0⟩]).getD 0 "") 0) ∧
    ((stackAt [⟨"A", 0, 0⟩] 0).getD 0 ("", 0, 0)).2.2 -
        ((stackAt [⟨"A", 0, 0⟩] 0).getD 0 ("", 0, 0)).2.1 =
      occupancy [⟨"A", 0, 0⟩] ((keys [⟨"A", 0, 0⟩]).getD 0 "") 0 ∧
    occupancy [⟨"A", 0, 0⟩] ((keys [⟨"A", 0, 0⟩]).getD 0 "") 0 ≤ 1 :=
  C4_stack_baseline_top [⟨"A", 0, 0⟩] 0 0 (by decide)

/-- The Set-insertion fold equals first-occurrence dedup relative to an
arbitrary accumulator of already-seen elements. -/
theorem keys_foldl_eq (l : List String) :
    ∀ acc : List String,
      l.foldl (fun acc x => if x ∈ acc then acc else acc ++ [x]) acc =
        acc ++ firstOccurrence (l.filter (fun x => decide (x ∉ acc))) := by
  induction l with
  | nil => intro acc; simp [firstOccurrence]
  | cons x xs ih =>
    intro acc
    by_cases hx : x ∈ acc
    · simp only [List.foldl_cons, if_pos hx]
      rw [ih acc]
      have hfx : (x :: xs).filter (fun y => decide (y ∉ acc)) =
          xs.filter (fun y => decide (y ∉ acc)) := by
        simp [List.filter_cons, hx]
      rw [hfx]
    · simp only [List.foldl_cons, if_neg hx]
      rw [ih (acc ++ [x])]
      have hfx : (x :: xs).filter (fun y => decide (y ∉ acc)) =
          x :: xs.filter (fun y => decide (y ∉ acc)) := by
        simp [List.filter_cons, hx]
      rw [hfx, firstOccurrence, List.append_assoc, List.singleton_append]
      congr 2
      rw [List.filter_filter]
      congr 1
      apply List.filter_congr
      intro y _
      by_cases h1 : y = x <;> by_cases h2 : y ∈ acc <;>
        simp [h1, h2, List.mem_append]

/-- C6: the derived key set is exactly the distinct ids in first-occurrence
order, and the pipeline is deterministic: identical input yields identical
key order and identical stacked series. -/
theorem C6_keys_first_occurrence (data : List Interval) :
    keys data = firstOccurrence (data.map (fun d => d.id)) ∧
    ∀ data2 : List Interval, data2 = data → drawChart data2 = drawChart data := by
  constructor
  · unfold keys
    rw [keys_foldl_eq]
    simp
  · intro d2 h
    rw [h]

/-- Witness for C6 at an input with a repeated id out of order. -/
theorem C6_keys_first_occurrence_witness :
    keys [⟨"B", 0, 1⟩, ⟨"A", 0, 1⟩, ⟨"B", 2, 3⟩] =
      firstOccurrence (([⟨"B", 0, 1⟩, ⟨"A", 0, 1⟩, ⟨"B", 2, 3⟩] : List Interval).map
        (fun d => d.id)) ∧
    drawChart [⟨"B", 0, 1⟩, ⟨"A", 0, 1⟩, ⟨"B", 2, 3⟩] =
      drawChart [⟨"B", 0, 1⟩, ⟨"A", 0, 1⟩, ⟨"B", 2, 3⟩] :=
  ⟨(C6_keys_first_occurrence [⟨"B", 0, 1⟩, ⟨"A", 0, 1⟩, ⟨"B", 2, 3⟩]).1,
   (C6_keys_first_occurrence [⟨"B", 0, 1⟩, ⟨"A", 0, 1⟩, ⟨"B", 2, 3⟩]).2
     [⟨"B", 0, 1⟩, ⟨"A", 0, 1⟩, ⟨"B", 2, 3⟩] rfl⟩

/-- Errors of the `i`-th remaining row land in the collected list, whatever
errors other rows contribute. -/
theorem mem_rowErrorsAux (fields : List String) :
    ∀ (data : List Row) (idx i : Nat) (hi : i < data.length) (e : ValidationError),
      e ∈ rowErrorsOf fields (idx + i + 2) (data.get ⟨i, hi⟩) →
      e ∈ rowErrorsAux fields idx data := by
  intro data
  induction data with
  | nil => intro idx i hi; simp at hi
  | cons r rs ih =>
    intro idx i hi e he
    cases i with
    | zero =>
      simp only [rowErrorsAux, List.mem_append]
      left
      simpa using he
    | succ i =>
      simp only [rowErrorsAux, List.mem_append]
      right
      have harith : idx + (i + 1) + 2 = (idx + 1) + i + 2 := by omega
      rw [harith] at he
      exact ih (idx + 1) i (Nat.lt_of_succ_lt_succ hi) e (by simpa using he)

/-- C7: row validation visits every row — each row's errors appear in the
collected list regardless of other rows — and whenever any row error
exists (and the header check passed) the entire input is rejected with the
collected errors capped at the first 200. -/
theorem C7_collect_all_errors_reject (fields : List String) (data : List Row) :
    (∀ (i : Nat) (hi : i < data.length) (e : ValidationError),
      e ∈ rowErrorsOf fields (i + 2) (data.get ⟨i, hi⟩) → e ∈ rowErrors fields data) ∧
    (missingColumns fields = [] → rowErrors fields data ≠ [] →
      handleCsvText fields data = Outcome.rejected ((rowErrors fields data).take 200) ∧
      ((rowErrors fields data).take 200).length ≤ 200) := by
  constructor
  · intro i hi e he
    exact mem_rowErrorsAux fields data 0 i hi e (by simpa using he)
  · intro hm he
    constructor
    · unfold handleCsvText
      simp [hm, he]
    · rw [List.length_take]
      exact Nat.min_le_left _ _

/-- Witness for C7: one row with an empty id and one row with end before
start; the first row's error is collected and the input is rejected. -/
theorem C7_collect_all_errors_reject_witness :
    ValidationError.missingId 2 ∈
      rowErrors ["id", "start", "end"]
        [[("id", "")], [("id", "A"), ("start", "2024-05-10"), ("end", "2024-05-01")]] ∧
    handleCsvText ["id", "start", "end"]
        [[("id", "")], [("id", "A"), ("start", "2024-05-10"), ("end", "2024-05-01")]] =
      Outcome.rejected
        ((rowErrors ["id", "start", "end"]
          [[("id", "")], [("id", "A"), ("start", "2024-05-10"), ("end", "2024-05-01")]]).take 200) ∧
    ((rowErrors ["id", "start", "end"]
        [[("id", "")], [("id", "A"), ("start", "2024-05-10"), ("end", "2024-05-01")]]).take 200).length ≤
      200 := by
  refine ⟨?_, ?_, ?_⟩
  · exact (C7_collect_all_errors_reject _ _).1 0 (by decide) _ (by decide)
  · exact ((C7_collect_all_errors_reject _ _).2 (by decide) (by decide)).1
  · exact ((C7_collect_all_errors_reject _ _).2 (by decide) (by decide)).2

/-- C8: the `i`-th data row (0-based) is reported as CSV row `i + 2`
(header = row 1, first data row = row 2): an empty trimmed id yields the
missing-id error at that row number, and an end date before the start date
yields the end-before-start error carrying both raw values. -/
theorem C8_row_numbers_messages (fields : List String) (data : List Row) (i : Nat)
    (hi : i < data.length) :
    (idValOf fields (data.get ⟨i, hi⟩) = "" →
      ValidationError.missingId (i + 2) ∈ rowErrors fields data) ∧
    (∀ ds de : Nat, startRawOf fields (data.get ⟨i, hi⟩) ≠ "" →
      endRawOf fields (data.get ⟨i, hi⟩) ≠ "" →
      parseDate (startRawOf fields (data.get ⟨i, hi⟩)) = some ds →
      parseDate (endRawOf fields (data.get ⟨i, hi⟩)) = some de →
      de < ds →
      ValidationError.endBeforeStart (i + 2) (startRawOf fields (data.get ⟨i, hi⟩))
        (endRawOf fields (data.get ⟨i, hi⟩)) ∈ rowErrors fields data) := by
  constructor
  · intro h
    simp only [List.get_eq_getElem] at h
    apply mem_rowErrorsAux fields data 0 i hi
    simp only [Nat.zero_add]
    simp [rowErrorsOf, h]
  · intro ds de h1 h2 h3 h4 h5
    simp only [List.get_eq_getElem] at h1 h2 h3 h4
    apply mem_rowErrorsAux fields data 0 i hi
    simp only [Nat.zero_add]
    simp [rowErrorsOf, h1, h2, h3, h4, h5]

/-- Witness for C8 at the spec's two test rows: the empty-id row is
reported at row 2 and the end-before-start row at row 3 with both raw
values. -/
theorem C8_row_numbers_messages_witness :
    ValidationError.missingId 2 ∈
      rowErrors ["id", "start", "end"]
        [[("id", ""), ("start", "2024-01-01"), ("end", "2024-01-02")],
         [("id", "A"), ("start", "2024-05-10"), ("end", "2024-05-01")]] ∧
    ValidationError.endBeforeStart 3 "2024-05-10" "2024-05-01" ∈
      rowErrors ["id", "start", "end"]
        [[("id", ""), ("start", "2024-01-01"), ("end", "2024-01-02")],
         [("id", "A"), ("start", "2024-05-10"), ("end", "2024-05-01")]] := by
  refine ⟨?_, ?_⟩
  · exact (C8_row_numbers_messages _ _ 0 (by decide)).1 (by decide)
  · exact (C8_row_numbers_messages _ _ 1 (by decide)).2
      (daysFromCivil 2024 5 10) (daysFromCivil 2024 5 1)
      (by decide) (by decide) (by decide) (by decide) (by decide)

/-- C9: a missing required column yields the single header-level error
naming the missing column(s), and nothing downstream runs — the outcome
does not depend on the data rows at all. -/
theorem C9_header_error_blocks (fields : List String) (data : List Row)
    (hm : missingColumns fields ≠ []) :
    handleCsvText fields data = Outcome.headerError (missingColumns fields) ∧
    ∀ data2 : List Row, handleCsvText fields data = handleCsvText fields data2 := by
  constructor
  · unfold handleCsvText
    simp [hm]
  · intro d2
    unfold handleCsvText
    simp [hm]

/-- Witness for C9 with the `end` column missing (case-insensitive header
recognition leaves `["end"]` missing). -/
theorem C9_header_error_blocks_witness :
    handleCsvText ["Id", "START"] [[("Id", "A")]] = Outcome.headerError ["end"] ∧
    handleCsvText ["Id", "START"] [[("Id", "A")]] = handleCsvText ["Id", "START"] [] := by
  have h := C9_header_error_blocks ["Id", "START"] [[("Id", "A")]] (by decide)
  exact ⟨h.1.trans (by decide), h.2 []⟩

/-- `trimChars` is a left-`dropWhile` followed by a right-`dropWhile`. -/
theorem trimChars_eq_rdrop (l : List Char) :
    trimChars l = List.rdropWhile Char.isWhitespace (l.dropWhile Char.isWhitespace) :=
  rfl

/-- Stripping leading whitespace again after the trailing strip changes
nothing: the leading strip already exposed a non-whitespace head, and the
trailing strip keeps the prefix. -/
theorem dropWhile_rdropWhile_dropWhile (p : Char → Bool) (l : List Char) :
    List.dropWhile p (List.rdropWhile p (List.dropWhile p l)) =
      List.rdropWhile p (List.dropWhile p l) := by
  apply List.dropWhile_eq_self_iff.mpr
  intro hl
  have hpre := List.rdropWhile_prefix p (List.dropWhile p l)
  have hm : 0 < (List.dropWhile p l).length :=
    Nat.lt_of_lt_of_le hl hpre.length_le
  have hg : (List.rdropWhile p (List.dropWhile p l)).get ⟨0, hl⟩ =
      (List.dropWhile p l).get ⟨0, hm⟩ := by
    have := List.IsPrefix.getElem hpre hl
    simp [List.get_eq_getElem, this]
  rw [hg]
  exact List.dropWhile_get_zero_not p l hm

/-- JS-style trimming is idempotent. -/
theorem trimChars_idem (l : List Char) : trimChars (trimChars l) = trimChars l := by
  rw [trimChars_eq_rdrop l, trimChars_eq_rdrop, dropWhile_rdropWhile_dropWhile,
    List.rdropWhile_idempotent]

/-- Parsing a trimmed string is the same as parsing the raw string: the
model of `new Date` tolerates surrounding whitespace, as the engines do. -/
theorem parseDate_jsTrim (s : String) : parseDate (jsTrim s) = parseDate s := by
  show parseYMD (trimChars (String.mk (trimChars s.toList)).toList) = parseYMD (trimChars s.toList)
  rw [show (String.mk (trimChars s.toList)).toList = trimChars s.toList from rfl, trimChars_idem]

/-- Trimming the empty string yields the empty string, so a non-empty
trimmed value comes from a non-empty raw value. -/
theorem jsTrim_ne_empty {v : String} (h : jsTrim v ≠ "") : v ≠ "" := by
  intro hv
  exact h (by rw [hv]; rfl)

/-- A row with no validation errors survives the defensive filter of
`processDataAndDrawChart`, provided the actual header spellings are the
lowercase names themselves. -/
theorem rowErrorsOf_nil_clean (fields : List String) (row : Row) (n : Nat)
    (hid : fieldMap fields "id" = some "id")
    (hstart : fieldMap fields "start" = some "start")
    (hend : fieldMap fields "end" = some "end")
    (h : rowErrorsOf fields n row = []) :
    (cleanRow row).isSome := by
  obtain ⟨h123, h4⟩ := List.append_eq_nil.mp h
  obtain ⟨h12, h3⟩ := List.append_eq_nil.mp h123
  obtain ⟨h1, h2⟩ := List.append_eq_nil.mp h12
  have hidne : idValOf fields row ≠ "" := by
    intro hc
    simp [hc] at h1
  have hsne : startRawOf fields row ≠ "" := by
    intro hc
    simp [hc] at h2
  have hene : endRawOf fields row ≠ "" := by
    intro hc
    simp [hc] at h3
  rw [if_neg hsne] at h2
  rw [if_neg hene] at h3
  have hps : ∃ ds, parseDate (startRawOf fields row) = some ds := by
    cases hc : parseDate (startRawOf fields row) with
    | none => simp [hc] at h2
    | some ds => exact ⟨ds, rfl⟩
  have hpe : ∃ de, parseDate (endRawOf fields row) = some de := by
    cases hc : parseDate (endRawOf fields row) with
    | none => simp [hc] at h3
    | some de => exact ⟨de, rfl⟩
  obtain ⟨ds, hds⟩ := hps
  obtain ⟨de, hde⟩ := hpe
  rw [if_neg hsne, if_neg hene, hds, hde] at h4
  have hle : ds ≤ de := by
    by_cases hlt : de < ds
    · simp [hlt] at h4
    · exact Nat.le_of_not_lt hlt
  cases hlv : lookupField row "id" with
  | none =>
    exact absurd (by simp [idValOf, getField, hid, hlv, Option.bind]) hidne
  | some v =>
    have hvraw : idValOf fields row = jsTrim v := by
      simp [idValOf, getField, hid, hlv, Option.bind]
    have hvne : v ≠ "" := jsTrim_ne_empty (hvraw ▸ hidne)
    cases hls : lookupField row "start" with
    | none =>
      exact absurd (by simp [startRawOf, getField, hstart, hls, Option.bind]) hsne
    | some sv =>
      have hsraw : startRawOf fields row = jsTrim sv := by
        simp [startRawOf, getField, hstart, hls, Option.bind]
      cases hle2 : lookupField row "end" with
      | none =>
        exact absurd (by simp [endRawOf, getField, hend, hle2, Option.bind]) hene
      | some ev =>
        have heraw : endRawOf fields row = jsTrim ev := by
          simp [endRawOf, getField, hend, hle2, Option.bind]
        have hpsv : parseDate sv = some ds := by
          rw [← parseDate_jsTrim sv, ← hsraw, hds]
        have hpev : parseDate ev = some de := by
          rw [← parseDate_jsTrim ev, ← heraw, hde]
        simp [cleanRow, hlv, hls, hle2, jsDateOf, jsStr, hpsv, hpev, hvne, hle]

/-- Error-free rows are all retained: the cleaned data has one interval per
input row. -/
theorem cleanData_length_of_valid (fields : List String)
    (hid : fieldMap fields "id" = some "id")
    (hstart : fieldMap fields "start" = some "start")
    (hend : fieldMap fields "end" = some "end") :
    ∀ (idx : Nat) (data : List Row), rowErrorsAux fields idx data = [] →
      (cleanData data).length = data.length := by
  intro idx data
  induction data generalizing idx with
  | nil => intro _; rfl
  | cons r rs ih =>
    intro h
    obtain ⟨hr, hrs⟩ := List.append_eq_nil.mp h
    obtain ⟨iv, hiv⟩ := Option.isSome_iff_exists.mp
      (rowErrorsOf_nil_clean fields r (idx + 2) hid hstart hend hr)
    have htail := ih (idx + 1) hrs
    simp only [cleanData, List.filterMap_cons, hiv, List.length_cons]
    simpa [cleanData] using htail

/-- C10 counterexample: with the legal header spelling `ID,Start,End`
(recognized case-insensitively) the single data row passes row-level
validation with no errors, yet `processDataAndDrawChart` accesses the
lowercase property names, its filter drops the row, and `handleCsvText`
reaches the "No valid data found" branch on a non-empty, fully valid
input — refuting the claimed refinement. -/
theorem C10_counterexample_header_case :
    missingColumns ["ID", "Start", "End"] = [] ∧
    rowErrors ["ID", "Start", "End"]
      [[("ID", "A"), ("Start", "2024-01-01"), ("End", "2024-01-02")]] = [] ∧
    ([[("ID", "A"), ("Start", "2024-01-01"), ("End", "2024-01-02")]] : List Row) ≠ [] ∧
    handleCsvText ["ID", "Start", "End"]
      [[("ID", "A"), ("Start", "2024-01-01"), ("End", "2024-01-02")]] =
      Outcome.noValidData := by
  decide

/-- C10 amended: when the actual header spellings are the lowercase names
`id`, `start`, `end` themselves (so row validation and the chart code read
the same properties), every row sequence that passes row-level validation
is retained in full by the defensive filter, and the "No valid data found"
branch is reached exactly when there are zero data rows. -/
theorem C10_amended_refinement (fields : List String) (data : List Row)
    (hid : fieldMap fields "id" = some "id")
    (hstart : fieldMap fields "start" = some "start")
    (hend : fieldMap fields "end" = some "end")
    (hv : rowErrors fields data = []) :
    (cleanData data).length = data.length ∧
    (processDataAndDrawChart data = Outcome.noValidData ↔ data = []) := by
  have hlen := cleanData_length_of_valid fields hid hstart hend 0 data hv
  refine ⟨hlen, ?_, ?_⟩
  · intro h
    unfold processDataAndDrawChart at h
    by_cases hd : cleanData data = []
    · have : data.length = 0 := by
        rw [← hlen, hd]
        rfl
      exact List.length_eq_zero.mp this
    · simp [hd] at h
  · intro h
    subst h
    rfl

/-- Witness for the amended C10 at a single valid lowercase-header row. -/
theorem C10_amended_refinement_witness :
    (cleanData [[("id", "A"), ("start", "2024-01-01"), ("end", "2024-01-02")]]).length =
      ([[("id", "A"), ("start", "2024-01-01"), ("end", "2024-01-02")]] : List Row).length ∧
    (processDataAndDrawChart [[("id", "A"), ("start", "2024-01-01"), ("end", "2024-01-02")]] =
        Outcome.noValidData ↔
      ([[("id", "A"), ("start", "2024-01-01"), ("end", "2024-01-02")]] : List Row) = []) :=
  C10_amended_refinement ["id", "start", "end"]
    [[("id", "A"), ("start", "2024-01-01"), ("end", "2024-01-02")]]
    (by decide) (by decide) (by decide) (by decide)

end Timeline
